import Mathlib

/-!
Shallow embedding of the CRAG (corrective RAG) pipeline:
`retriever.py`, `query_rewriter.py`, `document_grader.py` / the grading loop in
`pipeline.py`, `response_generator.py`, `input_analyzer.py`, and the
orchestrating state machine `CRAGPipeline` in `pipeline.py`.

External services (embedding, vector index, LLM completions) are modelled as
an oracle record `Env`; a call that raises an exception in Python is a call
returning `Except.error ()` here.  The LangGraph state machine is executed by
an explicit fuel-indexed interpreter over the node functions and the edge
tables wired up in `CRAGPipeline.__init__`.
-/

namespace CRAG

/-- A conversation turn `{"role": ..., "content": ...}`. -/
structure Message where
  role : String
  content : String
deriving DecidableEq

/-- A LangChain `Document` as built by `Retriever.retrieve_relevant_docs`:
`page_content` plus the `source` and `score` metadata entries.  Scores are
only stored, never computed with, so they are embedded as integers. -/
structure Document where
  page_content : String
  source : String
  score : Int
deriving DecidableEq

/-- One raw match of a Pinecone index response: the optional
`metadata["text"]`, `metadata["source"]` and `score` fields (a `none` field is
one that is absent from the response). -/
structure IndexMatch where
  text : Option String
  source : Option String
  score : Option Int
deriving DecidableEq

/-- Opaque metadata filter mapping, passed through to the index unmodified. -/
abbrev MetadataFilter := List (String × String)

/-- Oracle record for the external services.  Each field is one kind of
outbound call; `Except.error ()` models the call raising an exception.
* `embed`: `OpenAIEmbeddings.embed_query`.
* `indexQuery`: `index.query(namespace, vector, filter, top_k)`, returning the
  `matches` list.
* `classify`: the input-analyzer completion chain, returning the `"type"`
  field of the parsed JSON (error for service failure / malformed JSON /
  missing key).
* `grade`: `grader_chain.invoke {query, document}`, returning the parsed
  dict's optional `"grade"` entry (`.ok none` models a dict without that key).
* `rewrite`: `rewriter_chain.invoke {query}`.
* `generate`: the response chain on `(query, context, history)`. -/
structure Env where
  embed : String → Except Unit (List Int)
  indexQuery : String → List Int → MetadataFilter → Nat → Except Unit (List IndexMatch)
  classify : String → Except Unit String
  grade : String → String → Except Unit (Option String)
  rewrite : String → Except Unit String
  generate : String → String → String → Except Unit String

/-! ## Retriever (`retriever.py`) -/

/-- `Document(page_content=..., metadata={"source": ..., "score": ...})`
construction from one match, with the source's default values:
`metadata.get("text", "No content available")`,
`metadata.get("source", "Unknown Source")`, `match.get("score", 0)`. -/
def matchToDoc (m : IndexMatch) : Document :=
  { page_content := m.text.getD "No content available"
    source := m.source.getD "Unknown Source"
    score := m.score.getD 0 }

/-- Count of outbound retrieval calls: embedding calls and index queries. -/
structure CallCount where
  embeds : Nat
  queries : Nat
deriving DecidableEq

def CallCount.add (a b : CallCount) : CallCount :=
  ⟨a.embeds + b.embeds, a.queries + b.queries⟩

/-- One embed-then-query round trip of `retrieve_relevant_docs`, with the
calls it issued: an embedding failure costs 1 embed call, an index failure
costs one embed and one query call. -/
def retrieveRaw (env : Env) (query ns : String) (mf : MetadataFilter) (k : Nat) :
    Except Unit (List IndexMatch) × CallCount :=
  match env.embed query with
  | .error e => (.error e, ⟨1, 0⟩)
  | .ok v =>
    match env.indexQuery ns v mf k with
    | .error e => (.error e, ⟨1, 1⟩)
    | .ok ms => (.ok ms, ⟨1, 1⟩)

/-- `Retriever.retrieve_relevant_docs(query, namespace, metadata_filter, k,
retry)`: embed the query, run the index query, and on an empty `matches` list
with `retry=True` re-run once with `k+2` and `retry=False`; any exception is
caught and yields `[]`.  The second component counts the embedding/index
calls issued. -/
def retrieve_relevant_docs (env : Env) (query ns : String) (mf : MetadataFilter)
    (k : Nat) (retry : Bool) : List Document × CallCount :=
  match retrieveRaw env query ns mf k with
  | (.error _, c) => ([], c)
  | (.ok ms, c) =>
    if ms.isEmpty && retry then
      match retrieveRaw env query ns mf (k + 2) with
      | (.error _, c₂) => ([], c.add c₂)
      | (.ok ms₂, c₂) => (ms₂.map matchToDoc, c.add c₂)
    else (ms.map matchToDoc, c)

/-! ## Query rewriter (`query_rewriter.py`) -/

/-- Whitespace characters stripped by Python's `str.strip()`. -/
def isSpaceChar (c : Char) : Bool :=
  c = ' ' || c = '\t' || c = '\n' || c = '\r'

/-- Python `str.strip()`: drop leading and trailing whitespace. -/
def pyStrip (s : String) : String :=
  ⟨((s.data.dropWhile isSpaceChar).reverse.dropWhile isSpaceChar).reverse⟩

/-- Python `str.lower()`: per-character lowercasing. -/
def pyLower (s : String) : String :=
  ⟨s.data.map Char.toLower⟩

/-- `QueryRewriter.rewrite_query`: invoke the rewriter chain and `.strip()`
the result; if it equals the input case-insensitively, append the fixed
suffix `" in simple terms"`; on an exception return the input unchanged. -/
def QueryRewriter_rewrite_query (env : Env) (query : String) : String :=
  match env.rewrite query with
  | .error _ => query
  | .ok out =>
    let improved := pyStrip out
    if pyLower improved = pyLower query then query ++ " in simple terms" else improved

/-- The rewrite sub-graph's state (`query_rewriter.GraphState`). -/
structure QRState where
  query : String
  rewritten_queries : List String
  attempt_count : Nat
deriving DecidableEq

/-- The `rewrite` node of `QueryRewritePipeline`. -/
def qrp_rewrite (env : Env) (s : QRState) : QRState :=
  let newQuery := QueryRewriter_rewrite_query env s.query
  { query := newQuery
    rewritten_queries := s.rewritten_queries ++ [newQuery]
    attempt_count := s.attempt_count + 1 }

/-- `QueryRewritePipeline.should_rewrite`. -/
def qrp_should_rewrite (s : QRState) : String :=
  if s.attempt_count ≥ 2 then "end"
  else if s.rewritten_queries.getLast? ≠ some s.query then "retry" else "end"

/-- The rewrite sub-graph loop: run the `rewrite` node, then loop while
`should_rewrite` answers `"retry"`.  `attempt_count` reaches 2 after two
node executions, so fuel 2 covers every possible run. -/
def qrp_loop (env : Env) : Nat → QRState → QRState
  | 0, s => s
  | n + 1, s =>
    let s' := qrp_rewrite env s
    if qrp_should_rewrite s' = "retry" then qrp_loop env n s' else s'

/-- `QueryRewritePipeline.run`. -/
def QueryRewritePipeline_run (env : Env) (query : String) : String :=
  (qrp_loop env 2 { query := query, rewritten_queries := [], attempt_count := 0 }).query

/-! ## Response generator (`response_generator.py`) -/

/-- Context string: `"\n\n".join(page_content)`, or the sentinel for an empty
document list. -/
def build_context (docs : List Document) : String :=
  if docs.isEmpty then "No relevant data."
  else String.intercalate "\n\n" (docs.map (fun d => d.page_content))

/-- History string: `"\n".join(f"{role}: {content}")`, or the sentinel for an
empty history. -/
def build_history (msgs : List Message) : String :=
  if msgs.isEmpty then "No prior conversation."
  else String.intercalate "\n" (msgs.map (fun m => m.role ++ ": " ++ m.content))

/-- `ResponseGenerator.generate_response`: one completion call on the built
prompt pieces; no exception handling, so a completion failure propagates. -/
def ResponseGenerator_generate_response (env : Env) (query : String)
    (relevant_docs : List Document) (messages : List Message) : Except Unit String :=
  env.generate query (build_context relevant_docs) (build_history messages)

/-- `ResponseGenerationPipeline.run`: a single-node graph around
`generate_response`; it adds no handling of its own. -/
def ResponseGenerationPipeline_run (env : Env) (query : String)
    (relevant_docs : List Document) (messages : List Message) : Except Unit String :=
  ResponseGenerator_generate_response env query relevant_docs messages

/-! ## Input analyzer (`input_analyzer.py`) -/

/-- `InputAnalyzer.analyze_input`: parse the completion's `"type"` field
through the `InputType` pydantic model (which only accepts `"question"` or
`"pleasantry"`); any failure defaults to `"question"`. -/
def InputAnalyzer_analyze_input (env : Env) (user_input : String) : String :=
  match env.classify user_input with
  | .error _ => "question"
  | .ok t => if t = "question" ∨ t = "pleasantry" then t else "question"

/-! ## Orchestrator (`pipeline.py`) -/

/-- `pipeline.GraphState` (`nspace` embeds the `namespace` field, whose
source name is a Lean keyword). -/
structure GraphState where
  query : String
  rewritten_queries : List String
  retrieved_docs : List Document
  relevant_docs : List Document
  attempt_count : Nat
  response : String
  input_type : String
  nspace : String
  metadata_filter : MetadataFilter
  messages : List Message
deriving DecidableEq

/-- `CRAGPipeline.filter_messages`: keep only the last 5 turns. -/
def filter_messages (messages : List Message) : List Message :=
  if messages.length > 5 then messages.drop (messages.length - 5) else messages

/-- The `analyze_input` node. -/
def analyze_input_node (env : Env) (s : GraphState) : GraphState :=
  { s with input_type := InputAnalyzer_analyze_input env s.query }

/-- The `retrieve_documents` node: retrieve with `k=5` (and the retriever's
default `retry=True`), replace `retrieved_docs`, reset `relevant_docs`. -/
def retrieve_documents_node (env : Env) (s : GraphState) : GraphState × CallCount :=
  let r := retrieve_relevant_docs env s.query s.nspace s.metadata_filter 5 true
  ({ s with retrieved_docs := r.1, relevant_docs := [] }, r.2)

/-- Verdict of one grading call inside the `grade_documents` loop:
`response["grade"] == "relevant"`, where a raising call (`.error`) or a dict
without a `"grade"` key (`.ok none`, a `KeyError`) is caught and the document
is simply not appended. -/
def gradeDoc (env : Env) (query : String) (d : Document) : Bool :=
  match env.grade query d.page_content with
  | .error _ => false
  | .ok none => false
  | .ok (some g) => g = "relevant"

/-- The `grade_documents` node: short-circuit on no retrieved documents,
otherwise keep, in order, exactly the documents whose grading call succeeded
with verdict `"relevant"`. -/
def grade_documents_node (env : Env) (s : GraphState) : GraphState :=
  if s.retrieved_docs.isEmpty then { s with relevant_docs := [] }
  else { s with relevant_docs := s.retrieved_docs.filter (fun d => gradeDoc env s.query d) }

/-- Number of grader completion calls a `grade_documents` pass issues: zero
on the empty short-circuit, otherwise one `grader_chain.invoke` per document
(failing calls included). -/
def grade_documents_calls (s : GraphState) : Nat :=
  if s.retrieved_docs.isEmpty then 0 else s.retrieved_docs.length

/-- The `rewrite_query` node: a no-op once `attempt_count ≥ 2`; otherwise run
the rewrite sub-pipeline, and when the result differs from the current query
record it and replace the query; either way increment `attempt_count`. -/
def rewrite_query_node (env : Env) (s : GraphState) : GraphState :=
  if s.attempt_count ≥ 2 then s
  else
    let rq := QueryRewritePipeline_run env s.query
    if rq ≠ s.query then
      { s with query := rq
               rewritten_queries := s.rewritten_queries ++ [rq]
               attempt_count := s.attempt_count + 1 }
    else { s with attempt_count := s.attempt_count + 1 }

/-- `CRAGPipeline.decide_analysis_result`. -/
def decide_analysis_result (s : GraphState) : String :=
  if s.input_type = "pleasantry" then "generate_response" else "retrieve_documents"

/-- `CRAGPipeline.decide_next_step`. -/
def decide_next_step (s : GraphState) : String :=
  if ¬ s.relevant_docs.isEmpty then "generate_response"
  else if s.attempt_count < 2 then "rewrite_query"
  else "apology"

/-- The `generate_response` node: truncate the history, run the response
sub-pipeline (whose completion failure propagates), and append the current
query as a user turn plus the response as an assistant turn. -/
def generate_response_node (env : Env) (s : GraphState) : Except Unit GraphState :=
  let filtered := filter_messages s.messages
  match ResponseGenerationPipeline_run env s.query s.relevant_docs filtered with
  | .error e => .error e
  | .ok resp =>
    .ok { s with response := resp
                 messages := filtered ++ [⟨"user", s.query⟩, ⟨"assistant", resp⟩] }

/-- The nodes of the compiled LangGraph workflow. -/
inductive Node where
  | analyze | retrieve | grade | rewrite | generate
deriving DecidableEq

/-- Outbound-call counters threaded through a run: retrieval calls plus
grader completion calls. -/
structure Counts where
  embeds : Nat
  queries : Nat
  gradeCalls : Nat
deriving DecidableEq

/-- Result of executing the workflow: final state, counters, and the trace of
executed nodes (each paired with `attempt_count` right after the node ran).
`genFailed` is the final-stage completion exception propagating out of the
graph (carrying the state the `generate_response` node was entered with);
`outOfFuel` marks interpreter fuel exhaustion and is proved unreachable. -/
inductive RunResult where
  | ok (s : GraphState) (c : Counts) (tr : List (Node × Nat))
  | genFailed (s : GraphState) (c : Counts) (tr : List (Node × Nat))
  | outOfFuel (s : GraphState) (c : Counts) (tr : List (Node × Nat))
deriving DecidableEq

def RunResult.state : RunResult → GraphState
  | .ok s _ _ => s
  | .genFailed s _ _ => s
  | .outOfFuel s _ _ => s

def RunResult.counts : RunResult → Counts
  | .ok _ c _ => c
  | .genFailed _ c _ => c
  | .outOfFuel _ c _ => c

def RunResult.trace : RunResult → List (Node × Nat)
  | .ok _ _ tr => tr
  | .genFailed _ _ tr => tr
  | .outOfFuel _ _ tr => tr

def RunResult.isOutOfFuel : RunResult → Bool
  | .outOfFuel _ _ _ => true
  | _ => false

/-- Fuel-indexed interpreter of the compiled workflow, following the edges
wired in `CRAGPipeline.__init__`: `analyze_input` branches through
`decide_analysis_result`; `retrieve_documents → grade_documents`;
`grade_documents` branches through `decide_next_step` (where both
`"generate_response"` and `"apology"` are wired to the `generate_response`
node); `rewrite_query → retrieve_documents`; `generate_response → END`. -/
def execFrom (env : Env) : Nat → Node → GraphState → Counts → List (Node × Nat) → RunResult
  | 0, _, s, c, tr => .outOfFuel s c tr
  | f + 1, .analyze, s, c, tr =>
    let s' := analyze_input_node env s
    let next := if decide_analysis_result s' = "generate_response"
      then Node.generate else Node.retrieve
    execFrom env f next s' c (tr ++ [(.analyze, s'.attempt_count)])
  | f + 1, .retrieve, s, c, tr =>
    let r := retrieve_documents_node env s
    execFrom env f .grade r.1
      ⟨c.embeds + r.2.embeds, c.queries + r.2.queries, c.gradeCalls⟩
      (tr ++ [(.retrieve, r.1.attempt_count)])
  | f + 1, .grade, s, c, tr =>
    let s' := grade_documents_node env s
    let next := if decide_next_step s' = "generate_response" then Node.generate
      else if decide_next_step s' = "rewrite_query" then Node.rewrite
      else Node.generate
    execFrom env f next s'
      ⟨c.embeds, c.queries, c.gradeCalls + grade_documents_calls s⟩
      (tr ++ [(.grade, s'.attempt_count)])
  | f + 1, .rewrite, s, c, tr =>
    let s' := rewrite_query_node env s
    execFrom env f .retrieve s' c (tr ++ [(.rewrite, s'.attempt_count)])
  | _ + 1, .generate, s, c, tr =>
    match generate_response_node env s with
    | .error _ => .genFailed s c (tr ++ [(.generate, s.attempt_count)])
    | .ok s' => .ok s' c (tr ++ [(.generate, s'.attempt_count)])

/-- The initial state built by `CRAGPipeline.run`. -/
def initState (query ns : String) (mf : MetadataFilter) (msgs : List Message) : GraphState :=
  { query := query, rewritten_queries := [], retrieved_docs := [], relevant_docs := []
    attempt_count := 0, response := "", input_type := ""
    nspace := ns, metadata_filter := mf, messages := msgs }

/-- `CRAGPipeline.run`'s traversal of the graph, from the `analyze_input`
entry point.  The longest possible node path has 10 nodes, so fuel 12 is
never exhausted (proved below). -/
def CRAGPipeline_run (env : Env) (query ns : String) (mf : MetadataFilter)
    (msgs : List Message) : RunResult :=
  execFrom env 12 .analyze (initState query ns mf msgs) ⟨0, 0, 0⟩ []

/-- The public surface of `CRAGPipeline.run`: the `(response, messages)` pair
of the last `generate_response` output, with the in-code defaults
(`"⚠️ No valid response found."`, the input history) if the stream produced
none; an exception escaping a node escapes `run` as well (`.error`). -/
def CRAGPipeline_run_api (env : Env) (query ns : String) (mf : MetadataFilter)
    (msgs : List Message) : Except Unit (String × List Message) :=
  match CRAGPipeline_run env query ns mf msgs with
  | .ok s _ _ => .ok (s.response, s.messages)
  | .genFailed _ _ _ => .error ()
  | .outOfFuel _ _ _ => .ok ("⚠️ No valid response found.", msgs)

end CRAG

/-! ## Structural lemmas about the node functions -/

namespace CRAG

lemma analyze_attempt (env : Env) (s : GraphState) :
    (analyze_input_node env s).attempt_count = s.attempt_count := rfl

lemma analyze_messages (env : Env) (s : GraphState) :
    (analyze_input_node env s).messages = s.messages := rfl

lemma grade_attempt (env : Env) (s : GraphState) :
    (grade_documents_node env s).attempt_count = s.attempt_count := by
  unfold grade_documents_node; split <;> rfl

lemma grade_messages (env : Env) (s : GraphState) :
    (grade_documents_node env s).messages = s.messages := by
  unfold grade_documents_node; split <;> rfl

lemma grade_retrieved (env : Env) (s : GraphState) :
    (grade_documents_node env s).retrieved_docs = s.retrieved_docs := by
  unfold grade_documents_node; split <;> rfl

lemma rewrite_messages (env : Env) (s : GraphState) :
    (rewrite_query_node env s).messages = s.messages := by
  unfold rewrite_query_node
  split
  · rfl
  · dsimp only; split <;> rfl

lemma rewrite_attempt_of_lt (env : Env) (s : GraphState) (h : s.attempt_count < 2) :
    (rewrite_query_node env s).attempt_count = s.attempt_count + 1 := by
  unfold rewrite_query_node
  rw [if_neg (by omega)]
  dsimp only; split <;> rfl

lemma retrieve_node_attempt (env : Env) (s : GraphState) :
    (retrieve_documents_node env s).1.attempt_count = s.attempt_count := rfl

lemma retrieve_node_messages (env : Env) (s : GraphState) :
    (retrieve_documents_node env s).1.messages = s.messages := rfl

lemma retrieveRaw_embeds (env : Env) (q ns : String) (mf : MetadataFilter) (k : Nat) :
    (retrieveRaw env q ns mf k).2.embeds ≤ 1 ∧ (retrieveRaw env q ns mf k).2.queries ≤ 1 := by
  unfold retrieveRaw
  rcases env.embed q with e | v
  · dsimp only; omega
  · dsimp only
    rcases env.indexQuery ns v mf k with e | ms <;> dsimp only <;> omega

lemma retrieve_counts (env : Env) (q ns : String) (mf : MetadataFilter) (k : Nat) (retry : Bool) :
    (retrieve_relevant_docs env q ns mf k retry).2.embeds ≤ 2 ∧
    (retrieve_relevant_docs env q ns mf k retry).2.queries ≤ 2 := by
  obtain ⟨h1, h2⟩ := retrieveRaw_embeds env q ns mf k
  obtain ⟨h1', h2'⟩ := retrieveRaw_embeds env q ns mf (k + 2)
  unfold retrieve_relevant_docs
  rcases hr : retrieveRaw env q ns mf k with ⟨res, c⟩
  rw [hr] at h1 h2
  dsimp only at h1 h2
  rcases res with e | ms
  · dsimp only; omega
  · dsimp only
    by_cases hb : (ms.isEmpty && retry) = true
    · rw [if_pos hb]
      rcases hr' : retrieveRaw env q ns mf (k + 2) with ⟨res', c'⟩
      rw [hr'] at h1' h2'
      dsimp only at h1' h2'
      rcases res' with e' | ms' <;> dsimp only [CallCount.add] <;> omega
    · rw [if_neg hb]
      dsimp only; omega

lemma decide_next_of_nonempty (s : GraphState) (h : s.relevant_docs ≠ []) :
    decide_next_step s = "generate_response" := by
  unfold decide_next_step
  rw [if_pos]
  simp [h]

lemma decide_next_of_empty_lt (s : GraphState) (h : s.relevant_docs = [])
    (h2 : s.attempt_count < 2) : decide_next_step s = "rewrite_query" := by
  unfold decide_next_step
  rw [if_neg (by simp [h]), if_pos h2]

lemma decide_next_of_empty_ge (s : GraphState) (h : s.relevant_docs = [])
    (h2 : ¬ s.attempt_count < 2) : decide_next_step s = "apology" := by
  unfold decide_next_step
  rw [if_neg (by simp [h]), if_neg h2]

/-- Once the retry budget is consumed, `decide_next_step` can no longer route
to the rewrite loop, whatever the rewriter returned. -/
lemma decide_next_ne_rewrite (s : GraphState) (h : 2 ≤ s.attempt_count) :
    decide_next_step s ≠ "rewrite_query" := by
  unfold decide_next_step
  split
  · decide
  · rw [if_neg (by omega)]
    decide

lemma generate_node_ok (env : Env) (s : GraphState) (resp : String)
    (h : env.generate s.query (build_context s.relevant_docs)
          (build_history (filter_messages s.messages)) = .ok resp) :
    generate_response_node env s =
      .ok { s with response := resp
                   messages := filter_messages s.messages ++
                     [⟨"user", s.query⟩, ⟨"assistant", resp⟩] } := by
  unfold generate_response_node ResponseGenerationPipeline_run ResponseGenerator_generate_response
  dsimp only
  rw [h]

lemma generate_node_error (env : Env) (s : GraphState)
    (h : env.generate s.query (build_context s.relevant_docs)
          (build_history (filter_messages s.messages)) = .error ()) :
    generate_response_node env s = .error () := by
  unfold generate_response_node ResponseGenerationPipeline_run ResponseGenerator_generate_response
  dsimp only
  rw [h]

end CRAG

namespace CRAG

/-- Executing the terminal `generate_response` node: never out of fuel, one
trace entry, counts unchanged, attempt unchanged, and on success the final
history is the truncated input history plus the user and assistant turns. -/
lemma exec_generate_bundle (env : Env) (f : Nat) (s : GraphState) (c : Counts)
    (tr : List (Node × Nat)) :
    ∃ r, execFrom env (f + 1) .generate s c tr = r ∧
      r.isOutOfFuel = false ∧
      r.trace = tr ++ [(.generate, s.attempt_count)] ∧
      r.counts = c ∧
      r.state.attempt_count = s.attempt_count ∧
      (∀ sf cf trf, r = .ok sf cf trf →
        sf.messages = filter_messages s.messages ++
          [⟨"user", sf.query⟩, ⟨"assistant", sf.response⟩] ∧
        sf.query = s.query ∧ sf.relevant_docs = s.relevant_docs) := by
  rcases hg : env.generate s.query (build_context s.relevant_docs)
      (build_history (filter_messages s.messages)) with e | resp
  · cases e
    refine ⟨_, rfl, ?_⟩
    simp only [execFrom, generate_node_error env s hg]
    refine ⟨rfl, rfl, rfl, rfl, ?_⟩
    intro sf cf trf h
    cases h
  · refine ⟨_, rfl, ?_⟩
    simp only [execFrom, generate_node_ok env s resp hg]
    refine ⟨rfl, rfl, rfl, rfl, ?_⟩
    intro sf cf trf h
    cases h
    exact ⟨rfl, rfl, rfl⟩

end CRAG


namespace CRAG

/-- One unfolding of the interpreter at a `grade_documents` node whose
decision is not the rewrite loop: control moves to `generate_response`. -/
lemma exec_grade_terminal (env : Env) (f : Nat) (s : GraphState) (c : Counts)
    (tr : List (Node × Nat))
    (hd : decide_next_step (grade_documents_node env s) ≠ "rewrite_query") :
    execFrom env (f + 1 + 1) .grade s c tr =
      execFrom env (f + 1) .generate (grade_documents_node env s)
        ⟨c.embeds, c.queries, c.gradeCalls + grade_documents_calls s⟩
        (tr ++ [(.grade, (grade_documents_node env s).attempt_count)]) := by
  conv_lhs => rw [execFrom]
  by_cases hg : decide_next_step (grade_documents_node env s) = "generate_response"
  · simp only [hg]
    simp
  · simp only [if_neg hg, if_neg hd]

/-- One unfolding of the interpreter at a `grade_documents` node that routes
into the rewrite loop. -/
lemma exec_grade_loop (env : Env) (f : Nat) (s : GraphState) (c : Counts)
    (tr : List (Node × Nat))
    (hd : decide_next_step (grade_documents_node env s) = "rewrite_query") :
    execFrom env (f + 1) .grade s c tr =
      execFrom env f .rewrite (grade_documents_node env s)
        ⟨c.embeds, c.queries, c.gradeCalls + grade_documents_calls s⟩
        (tr ++ [(.grade, (grade_documents_node env s).attempt_count)]) := by
  conv_lhs => rw [execFrom]
  simp only [hd]
  simp

/-- One unfolding of the interpreter at the `rewrite_query` node. -/
lemma exec_rewrite_step (env : Env) (f : Nat) (s : GraphState) (c : Counts)
    (tr : List (Node × Nat)) :
    execFrom env (f + 1) .rewrite s c tr =
      execFrom env f .retrieve (rewrite_query_node env s) c
        (tr ++ [(.rewrite, (rewrite_query_node env s).attempt_count)]) := by
  conv_lhs => rw [execFrom]

/-- One unfolding of the interpreter at the `retrieve_documents` node. -/
lemma exec_retrieve_step (env : Env) (f : Nat) (s : GraphState) (c : Counts)
    (tr : List (Node × Nat)) :
    execFrom env (f + 1) .retrieve s c tr =
      execFrom env f .grade (retrieve_documents_node env s).1
        ⟨c.embeds + (retrieve_documents_node env s).2.embeds,
          c.queries + (retrieve_documents_node env s).2.queries, c.gradeCalls⟩
        (tr ++ [(.retrieve, (retrieve_documents_node env s).1.attempt_count)]) := by
  conv_lhs => rw [execFrom]

end CRAG

namespace CRAG

/-- Full result bundle for a grade pass that exits the loop (its decision is
not `"rewrite_query"`): the run ends at `generate_response` two steps later
with unchanged attempt count and no further retrieval calls. -/
lemma exec_grade_masterT (env : Env) (k f : Nat) (s : GraphState) (c : Counts)
    (tr : List (Node × Nat)) (h2 : s.attempt_count ≤ 2)
    (hd : decide_next_step (grade_documents_node env s) ≠ "rewrite_query") :
    ∃ r tl, execFrom env (f + 1 + 1) .grade s c tr = r ∧
      r.isOutOfFuel = false ∧
      r.trace = tr ++ tl ∧
      (tl.map Prod.fst).getLast? = some .generate ∧
      List.Chain' (· ≤ ·) (s.attempt_count :: tl.map Prod.snd) ∧
      (∀ a ∈ tl.map Prod.snd, a ≤ 2) ∧
      r.counts.embeds ≤ c.embeds + 2 * k ∧
      r.counts.queries ≤ c.queries + 2 * k ∧
      r.state.attempt_count ≤ 2 ∧
      (∀ sf cf trf, r = .ok sf cf trf →
        sf.messages = filter_messages s.messages ++
          [⟨"user", sf.query⟩, ⟨"assistant", sf.response⟩]) := by
  obtain ⟨r, hr, hfuel, htr, hcnt, hatt, hmsg⟩ :=
    exec_generate_bundle env f (grade_documents_node env s)
      ⟨c.embeds, c.queries, c.gradeCalls + grade_documents_calls s⟩
      (tr ++ [(.grade, (grade_documents_node env s).attempt_count)])
  refine ⟨r, [(.grade, s.attempt_count), (.generate, s.attempt_count)],
    (exec_grade_terminal env f s c tr hd).trans hr, hfuel, ?_, ?_, ?_, ?_, ?_, ?_, ?_, ?_⟩
  · rw [htr, grade_attempt]
    simp
  · simp
  · simp [List.chain'_cons]
  · intro a ha
    simp only [List.map_cons, List.mem_cons] at ha
    rcases ha with rfl | rfl | h
    · omega
    · omega
    · simp at h
  · rw [hcnt]; dsimp only; omega
  · rw [hcnt]; dsimp only; omega
  · rw [hatt, grade_attempt]; omega
  · intro sf cf trf h
    have := hmsg sf cf trf h
    rw [grade_messages] at this
    exact this.1

end CRAG

namespace CRAG

/-- Master lemma for the retry loop: entering at `grade_documents` with at
most `k` rewrite attempts left in the budget (and fuel `2 + 3k`), the run
always reaches the `generate_response` node without exhausting fuel, keeps
`attempt_count` non-decreasing and bounded by 2 along the trace, issues at
most `2k` further embedding/index call pairs, and on success the final
history is the truncated entry history plus exactly one user and one
assistant turn. -/
lemma exec_grade_master (env : Env) :
    ∀ (k f : Nat) (s : GraphState) (c : Counts) (tr : List (Node × Nat)),
      2 ≤ s.attempt_count + k →
      s.attempt_count ≤ 2 →
      2 + 3 * k ≤ f →
      ∃ r tl, execFrom env f .grade s c tr = r ∧
        r.isOutOfFuel = false ∧
        r.trace = tr ++ tl ∧
        (tl.map Prod.fst).getLast? = some .generate ∧
        List.Chain' (· ≤ ·) (s.attempt_count :: tl.map Prod.snd) ∧
        (∀ a ∈ tl.map Prod.snd, a ≤ 2) ∧
        r.counts.embeds ≤ c.embeds + 2 * k ∧
        r.counts.queries ≤ c.queries + 2 * k ∧
        r.state.attempt_count ≤ 2 ∧
        (∀ sf cf trf, r = .ok sf cf trf →
          sf.messages = filter_messages s.messages ++
            [⟨"user", sf.query⟩, ⟨"assistant", sf.response⟩]) := by
  intro k
  induction k with
  | zero =>
    intro f s c tr h1 h2 h3
    obtain ⟨f', rfl⟩ : ∃ f', f = f' + 1 + 1 := ⟨f - 2, by omega⟩
    exact exec_grade_masterT env 0 f' s c tr h2
      (decide_next_ne_rewrite _ (by rw [grade_attempt]; omega))
  | succ k ih =>
    intro f s c tr h1 h2 h3
    by_cases hrel : (grade_documents_node env s).relevant_docs = []
    · by_cases hlt : s.attempt_count < 2
      · -- loop case: grade → rewrite → retrieve → grade
        obtain ⟨f₃, rfl⟩ : ∃ f₃, f = f₃ + 1 + 1 + 1 := ⟨f - 3, by omega⟩
        have hf₃ : 2 + 3 * k ≤ f₃ := by omega
        have hd : decide_next_step (grade_documents_node env s) = "rewrite_query" :=
          decide_next_of_empty_lt _ hrel (by rw [grade_attempt]; omega)
        have hga : (grade_documents_node env s).attempt_count = s.attempt_count :=
          grade_attempt env s
        have hra : (rewrite_query_node env (grade_documents_node env s)).attempt_count
            = s.attempt_count + 1 := by
          rw [rewrite_attempt_of_lt env _ (by rw [hga]; omega), hga]
        have hta : ((retrieve_documents_node env (rewrite_query_node env
            (grade_documents_node env s))).1).attempt_count = s.attempt_count + 1 := by
          rw [retrieve_node_attempt, hra]
        have e1 := exec_grade_loop env (f₃ + 1 + 1) s c tr hd
        rw [hga] at e1
        have e2 := exec_rewrite_step env (f₃ + 1) (grade_documents_node env s)
          ⟨c.embeds, c.queries, c.gradeCalls + grade_documents_calls s⟩
          (tr ++ [(.grade, s.attempt_count)])
        rw [hra] at e2
        have e3 := exec_retrieve_step env f₃
          (rewrite_query_node env (grade_documents_node env s))
          ⟨c.embeds, c.queries, c.gradeCalls + grade_documents_calls s⟩
          (tr ++ [(.grade, s.attempt_count)] ++ [(.rewrite, s.attempt_count + 1)])
        rw [hta] at e3
        dsimp only at e3
        obtain ⟨r, tl', hr, hfuel, htr, hlast, hchain, hbound, hemb, hque, hattf, hmsg⟩ :=
          ih f₃ (retrieve_documents_node env (rewrite_query_node env
              (grade_documents_node env s))).1
            ⟨c.embeds + (retrieve_documents_node env (rewrite_query_node env
                (grade_documents_node env s))).2.embeds,
              c.queries + (retrieve_documents_node env (rewrite_query_node env
                (grade_documents_node env s))).2.queries,
              c.gradeCalls + grade_documents_calls s⟩
            (tr ++ [(.grade, s.attempt_count)] ++ [(.rewrite, s.attempt_count + 1)]
              ++ [(.retrieve, s.attempt_count + 1)])
            (by rw [hta]; omega) (by rw [hta]; omega) hf₃
        rw [hta] at hchain
        have h2e : (retrieve_documents_node env (rewrite_query_node env
            (grade_documents_node env s))).2.embeds ≤ 2 :=
          (retrieve_counts env _ _ _ 5 true).1
        have h2q : (retrieve_documents_node env (rewrite_query_node env
            (grade_documents_node env s))).2.queries ≤ 2 :=
          (retrieve_counts env _ _ _ 5 true).2
        dsimp only at hemb hque
        refine ⟨r, (.grade, s.attempt_count) :: (.rewrite, s.attempt_count + 1)
            :: (.retrieve, s.attempt_count + 1) :: tl',
            e1.trans (e2.trans (e3.trans hr)), hfuel, ?_, ?_, ?_, ?_, ?_, ?_, hattf, ?_⟩
        · rw [htr]
          simp
        · have hne : tl'.map Prod.fst ≠ [] := by
            intro h0
            rw [h0] at hlast
            simp at hlast
          obtain ⟨x, xs, hx⟩ := List.exists_cons_of_ne_nil hne
          simp only [List.map_cons, hx]
          rw [List.getLast?_cons_cons, List.getLast?_cons_cons, List.getLast?_cons_cons]
          rw [hx] at hlast
          exact hlast
        · simp only [List.map_cons, List.chain'_cons]
          exact ⟨le_refl _, ⟨Nat.le_succ _, ⟨le_refl _, hchain⟩⟩⟩
        · intro a ha
          simp only [List.map_cons, List.mem_cons] at ha
          rcases ha with rfl | rfl | rfl | h
          · omega
          · omega
          · omega
          · exact hbound a h
        · omega
        · omega
        · intro sf cf trf h
          have hmem := hmsg sf cf trf h
          have hm : ((retrieve_documents_node env (rewrite_query_node env
              (grade_documents_node env s))).1).messages = s.messages := by
            rw [retrieve_node_messages, rewrite_messages, grade_messages]
          rw [hm] at hmem
          exact hmem
      · -- budget exhausted: grade decides "apology", run ends at generate
        obtain ⟨f', rfl⟩ : ∃ f', f = f' + 1 + 1 := ⟨f - 2, by omega⟩
        refine exec_grade_masterT env (k + 1) f' s c tr h2 ?_
        rw [decide_next_of_empty_ge _ hrel (by rw [grade_attempt]; omega)]
        decide
    · -- relevant documents found: grade decides "generate_response"
      obtain ⟨f', rfl⟩ : ∃ f', f = f' + 1 + 1 := ⟨f - 2, by omega⟩
      refine exec_grade_masterT env (k + 1) f' s c tr h2 ?_
      rw [decide_next_of_nonempty _ hrel]
      decide

end CRAG

namespace CRAG

/-- One unfolding of the interpreter at the `analyze_input` entry node. -/
lemma exec_analyze_step (env : Env) (f : Nat) (s : GraphState) (c : Counts)
    (tr : List (Node × Nat)) :
    execFrom env (f + 1) .analyze s c tr =
      execFrom env f
        (if decide_analysis_result (analyze_input_node env s) = "generate_response"
          then Node.generate else Node.retrieve)
        (analyze_input_node env s) c
        (tr ++ [(.analyze, (analyze_input_node env s).attempt_count)]) := by
  conv_lhs => rw [execFrom]

/-- Full-run bundle: every run of the compiled graph ends at the
`generate_response` node without fuel exhaustion, with `attempt_count`
non-decreasing from 0 and bounded by 2 along the executed nodes, at most 6
embedding calls and 6 index queries, and (on success) a final history equal
to the truncated input history plus one user and one assistant turn. -/
lemma run_master (env : Env) (q ns : String) (mf : MetadataFilter) (msgs : List Message) :
    ∃ r, CRAGPipeline_run env q ns mf msgs = r ∧
      r.isOutOfFuel = false ∧
      (r.trace.map Prod.fst).getLast? = some .generate ∧
      List.Chain' (· ≤ ·) (0 :: r.trace.map Prod.snd) ∧
      (∀ a ∈ r.trace.map Prod.snd, a ≤ 2) ∧
      r.counts.embeds ≤ 6 ∧
      r.counts.queries ≤ 6 ∧
      r.state.attempt_count ≤ 2 ∧
      (∀ sf cf trf, r = .ok sf cf trf →
        sf.messages = filter_messages msgs ++
          [⟨"user", sf.query⟩, ⟨"assistant", sf.response⟩]) := by
  have h12 : CRAGPipeline_run env q ns mf msgs =
      execFrom env (11 + 1) .analyze (initState q ns mf msgs) ⟨0, 0, 0⟩ [] := rfl
  have e0 := exec_analyze_step env 11 (initState q ns mf msgs) ⟨0, 0, 0⟩ []
  have ha1 : (analyze_input_node env (initState q ns mf msgs)).attempt_count = 0 := rfl
  have hm1 : (analyze_input_node env (initState q ns mf msgs)).messages = msgs := rfl
  rw [ha1] at e0
  have h11 : (11 : Nat) = 10 + 1 := rfl
  rw [h11] at e0
  by_cases hp : decide_analysis_result (analyze_input_node env (initState q ns mf msgs))
      = "generate_response"
  · -- pleasantry: analyze → generate
    rw [if_pos hp] at e0
    obtain ⟨r, hr, hfuel, htr, hcnt, hatt, hmsg⟩ :=
      exec_generate_bundle env 10 (analyze_input_node env (initState q ns mf msgs))
        ⟨0, 0, 0⟩ [(.analyze, 0)]
    rw [ha1] at htr hatt
    refine ⟨r, h12.trans (e0.trans hr), hfuel, ?_, ?_, ?_, ?_, ?_, ?_, ?_⟩
    · rw [htr]; rfl
    · rw [htr]
      simp [List.chain'_cons]
    · intro a ha
      rw [htr] at ha
      simp at ha
      omega
    · rw [hcnt]; decide
    · rw [hcnt]; decide
    · rw [hatt]; omega
    · intro sf cf trf h
      have := hmsg sf cf trf h
      rw [hm1] at this
      exact this.1
  · -- question: analyze → retrieve → grade loop
    rw [if_neg hp] at e0
    have e1 := exec_retrieve_step env 10 (analyze_input_node env (initState q ns mf msgs))
      ⟨0, 0, 0⟩ [(.analyze, 0)]
    have hra : ((retrieve_documents_node env
        (analyze_input_node env (initState q ns mf msgs))).1).attempt_count = 0 := by
      rw [retrieve_node_attempt, ha1]
    rw [hra] at e1
    dsimp only at e1
    obtain ⟨r, tl', hr, hfuel, htr, hlast, hchain, hbound, hemb, hque, hattf, hmsg⟩ :=
      exec_grade_master env 2 10
        (retrieve_documents_node env (analyze_input_node env (initState q ns mf msgs))).1
        ⟨0 + (retrieve_documents_node env
            (analyze_input_node env (initState q ns mf msgs))).2.embeds,
          0 + (retrieve_documents_node env
            (analyze_input_node env (initState q ns mf msgs))).2.queries, 0⟩
        ([(.analyze, 0)] ++ [(.retrieve, 0)])
        (by rw [hra]) (by rw [hra]; omega) (by omega)
    rw [hra] at hchain
    have h2e : (retrieve_documents_node env
        (analyze_input_node env (initState q ns mf msgs))).2.embeds ≤ 2 :=
      (retrieve_counts env _ _ _ 5 true).1
    have h2q : (retrieve_documents_node env
        (analyze_input_node env (initState q ns mf msgs))).2.queries ≤ 2 :=
      (retrieve_counts env _ _ _ 5 true).2
    dsimp only at hemb hque
    refine ⟨r, h12.trans (e0.trans (e1.trans hr)), hfuel, ?_, ?_, ?_, ?_, ?_, hattf, ?_⟩
    · have hne : tl'.map Prod.fst ≠ [] := by
        intro h0
        rw [h0] at hlast
        simp at hlast
      obtain ⟨x, xs, hx⟩ := List.exists_cons_of_ne_nil hne
      rw [htr]
      simp only [List.map_append, List.map_cons, List.map_nil]
      rw [hx] at hlast ⊢
      simp only [List.cons_append, List.nil_append]
      rw [List.getLast?_cons_cons, List.getLast?_cons_cons]
      exact hlast
    · rw [htr]
      simp only [List.map_append, List.map_cons, List.map_nil, List.cons_append,
        List.nil_append, List.chain'_cons]
      exact ⟨le_refl _, le_refl _, hchain⟩
    · intro a ha
      rw [htr] at ha
      simp only [List.map_append, List.map_cons, List.map_nil, List.cons_append,
        List.nil_append, List.mem_cons] at ha
      rcases ha with rfl | rfl | h
      · omega
      · omega
      · exact hbound a (by simpa using h)
    · omega
    · omega
    · intro sf cf trf h
      have hmem := hmsg sf cf trf h
      have hm : ((retrieve_documents_node env
          (analyze_input_node env (initState q ns mf msgs))).1).messages = msgs := by
        rw [retrieve_node_messages, hm1]
      rw [hm] at hmem
      exact hmem

end CRAG

namespace CRAG

/-- The rewrite sub-pipeline always ends after a single `rewrite` node
(`should_rewrite` compares the just-appended query with itself), so its run
coincides with one `QueryRewriter.rewrite_query` call. -/
lemma qrp_run_eq (env : Env) (q : String) :
    QueryRewritePipeline_run env q = QueryRewriter_rewrite_query env q := by
  simp [QueryRewritePipeline_run, qrp_loop, qrp_rewrite, qrp_should_rewrite]

/-- Appending a nonempty string changes any string. -/
lemma append_suffix_ne (q r : String) (h : r.data ≠ []) : q ++ r ≠ q := by
  obtain ⟨l⟩ := q
  obtain ⟨m⟩ := r
  intro he
  have h2 : l ++ m = l := congrArg String.data he
  have hlen := congrArg List.length h2
  rw [List.length_append] at hlen
  have hm : m.length = 0 := by omega
  exact h (List.length_eq_zero.mp hm)

lemma ne_of_pyLower_ne {a b : String} (h : pyLower a ≠ pyLower b) : a ≠ b :=
  fun he => h (he ▸ rfl)

lemma dropLast_getLast?_append (L : List Message) (u a : Message) :
    ((L ++ [u, a]).dropLast).getLast? = some u := by
  have h : L ++ [u, a] = (L ++ [u]) ++ [a] := by simp
  rw [h, List.dropLast_concat, List.getLast?_concat]

end CRAG

namespace CRAG

/-! ## Concrete service stubs used as test fixtures -/

/-- Stub services: classification says `"question"`, the index always
returns no matches, grading says `"irrelevant"`, the rewriter appends `"x"`,
generation answers `"ANSWER"`. -/
def envEmptyIdx : Env :=
  { embed := fun _ => .ok []
    indexQuery := fun _ _ _ _ => .ok []
    classify := fun _ => .ok "question"
    grade := fun _ _ => .ok (some "irrelevant")
    rewrite := fun q => .ok (q ++ "x")
    generate := fun _ _ _ => .ok "ANSWER" }

/-- Like `envEmptyIdx` but the input is classified as a pleasantry. -/
def envPleasantry : Env :=
  { envEmptyIdx with classify := fun _ => .ok "pleasantry" }

/-- Like `envPleasantry` but the final completion call raises. -/
def envGenFail : Env :=
  { envPleasantry with generate := fun _ _ _ => .error () }

/-- Rewriter oracle that cycles `"a" ↦ "b" ↦ "a"`. -/
def envCycle : Env :=
  { envEmptyIdx with rewrite := fun q => .ok (if q = "a" then "b" else "a") }

/-- The index returns a single match carrying text but no source field. -/
def envNoSource : Env :=
  { envEmptyIdx with indexQuery := fun _ _ _ _ => .ok [⟨some "hello", none, none⟩] }

/-- The rewriter echoes its input padded with whitespace. -/
def envEcho : Env :=
  { envEmptyIdx with rewrite := fun q => .ok (" " ++ q ++ " ") }

/-- The rewrite completion call raises. -/
def envRewFail : Env :=
  { envEmptyIdx with rewrite := fun _ => .error () }

/-- The embedding call raises. -/
def envEmbedFail : Env :=
  { envEmptyIdx with embed := fun _ => .error () }

/-- The index query call raises. -/
def envIdxFail : Env :=
  { envEmptyIdx with indexQuery := fun _ _ _ _ => .error () }

/-- Grading raises exactly on the document whose content is `"bad"` and
grades everything else relevant. -/
def envGradeBad : Env :=
  { envEmptyIdx with grade := fun _ doc =>
      if doc = "bad" then .error () else .ok (some "relevant") }

/-- A six-turn input history (one more than the truncation window). -/
def msgs6 : List Message :=
  [⟨"user", "m1"⟩, ⟨"assistant", "m2"⟩, ⟨"user", "m3"⟩,
   ⟨"assistant", "m4"⟩, ⟨"user", "m5"⟩, ⟨"assistant", "m6"⟩]

def doc1 : Document := ⟨"good1", "s1", 0⟩
def docBad : Document := ⟨"bad", "s2", 0⟩
def doc3 : Document := ⟨"good3", "s3", 0⟩

/-- A pipeline state holding three retrieved documents, the middle one
fated to fail grading. -/
def stateThree : GraphState :=
  { initState "q" "ns" [] [] with retrieved_docs := [doc1, docBad, doc3] }

/-- A pipeline state with an exhausted rewrite budget. -/
def stateAtt2 : GraphState :=
  { initState "q" "ns" [] [] with attempt_count := 2 }

/-- Final state of the pleasantry run of `envPleasantry` on `msgs6`. -/
def sfPleasant : GraphState :=
  { query := "hi", rewritten_queries := [], retrieved_docs := [], relevant_docs := []
    attempt_count := 0, response := "ANSWER", input_type := "pleasantry"
    nspace := "ns", metadata_filter := []
    messages := [⟨"assistant", "m2"⟩, ⟨"user", "m3"⟩, ⟨"assistant", "m4"⟩,
      ⟨"user", "m5"⟩, ⟨"assistant", "m6"⟩, ⟨"user", "hi"⟩, ⟨"assistant", "ANSWER"⟩] }

/-- Final state of the `envCycle` run on query `"a"`. -/
def sfCycle : GraphState :=
  { query := "a", rewritten_queries := ["b", "a"], retrieved_docs := [], relevant_docs := []
    attempt_count := 2, response := "ANSWER", input_type := "question"
    nspace := "ns", metadata_filter := []
    messages := [⟨"user", "a"⟩, ⟨"assistant", "ANSWER"⟩] }

end CRAG

namespace CRAG

/-! ## Claims -/

/-- C1: for every input to the Orchestrator's `run`, the pipeline state's
`attempt_count` never exceeds 2, is monotonically non-decreasing across
transitions, and the state machine always reaches the terminal
`generate_response` step in a finite number of transitions (without
exhausting the interpreter's fuel); moreover `decide_next_step` never routes
to the rewrite loop once `attempt_count ≥ 2`, regardless of what the
rewriter returns. -/
theorem C1_attempt_bound_and_termination (env : Env) (q ns : String)
    (mf : MetadataFilter) (msgs : List Message) :
    (CRAGPipeline_run env q ns mf msgs).isOutOfFuel = false ∧
    ((CRAGPipeline_run env q ns mf msgs).trace.map Prod.fst).getLast? = some .generate ∧
    List.Chain' (· ≤ ·) (0 :: (CRAGPipeline_run env q ns mf msgs).trace.map Prod.snd) ∧
    (∀ a ∈ (CRAGPipeline_run env q ns mf msgs).trace.map Prod.snd, a ≤ 2) ∧
    (CRAGPipeline_run env q ns mf msgs).state.attempt_count ≤ 2 ∧
    (∀ s : GraphState, 2 ≤ s.attempt_count → decide_next_step s ≠ "rewrite_query") := by
  obtain ⟨r, hreq, hfuel, hlast, hchain, hbound, _, _, hatt, _⟩ := run_master env q ns mf msgs
  rw [hreq]
  exact ⟨hfuel, hlast, hchain, hbound, hatt, fun s hs => decide_next_ne_rewrite s hs⟩

/-- Witness for C1 at a concrete stubbed run and a concrete exhausted
state. -/
theorem C1_attempt_bound_and_termination_w :
    ((CRAGPipeline_run envEmptyIdx "q" "ns" [] []).trace.map Prod.fst).getLast?
      = some .generate ∧
    (2 : Nat) ≤ 2 ∧
    decide_next_step stateAtt2 ≠ "rewrite_query" :=
  ⟨(C1_attempt_bound_and_termination envEmptyIdx "q" "ns" [] []).2.1,
   (C1_attempt_bound_and_termination envEmptyIdx "q" "ns" [] []).2.2.2.1 2 (by decide),
   (C1_attempt_bound_and_termination envEmptyIdx "q" "ns" [] []).2.2.2.2.2 stateAtt2
     (by decide)⟩

/-- C2 counterexample: with an index that keeps answering "no matches", a
single run issues 6 embedding+query call pairs (the retriever's internal
`k+2` retry doubles each of the 3 retrieval attempts), exceeding the claimed
bound of 3. -/
theorem C2_cex :
    (CRAGPipeline_run envEmptyIdx "q" "ns" [] []).counts.embeds = 6 ∧
    (CRAGPipeline_run envEmptyIdx "q" "ns" [] []).counts.queries = 6 ∧
    ¬ (CRAGPipeline_run envEmptyIdx "q" "ns" [] []).counts.embeds ≤ 3 := by decide

/-- C2 amended: every run issues at most 6 embedding calls and 6 index
queries (at most 2 pairs per retrieval attempt — one plus the retriever's
internal empty-result retry — times at most 3 retrieval attempts). -/
theorem C2_amended (env : Env) (q ns : String) (mf : MetadataFilter)
    (msgs : List Message) :
    (CRAGPipeline_run env q ns mf msgs).counts.embeds ≤ 6 ∧
    (CRAGPipeline_run env q ns mf msgs).counts.queries ≤ 6 ∧
    (∀ q' ns' mf' k retry, (retrieve_relevant_docs env q' ns' mf' k retry).2.embeds ≤ 2 ∧
      (retrieve_relevant_docs env q' ns' mf' k retry).2.queries ≤ 2) := by
  obtain ⟨r, hreq, _, _, _, _, hemb, hque, _, _⟩ := run_master env q ns mf msgs
  rw [hreq]
  exact ⟨hemb, hque, fun q' ns' mf' k retry => retrieve_counts env q' ns' mf' k retry⟩

/-- C3 counterexample: with 6 input turns, the returned history is the
last-5 truncation plus the two new turns (7 turns), not the full input
history plus two turns (8 turns). -/
theorem C3_cex :
    CRAGPipeline_run_api envPleasantry "hi" "ns" [] msgs6 =
      .ok ("ANSWER", filter_messages msgs6 ++ [⟨"user", "hi"⟩, ⟨"assistant", "ANSWER"⟩]) ∧
    filter_messages msgs6 ++ [⟨"user", "hi"⟩, ⟨"assistant", "ANSWER"⟩] ≠
      msgs6 ++ [⟨"user", "hi"⟩, ⟨"assistant", "ANSWER"⟩] :=
  ⟨by rfl, by decide⟩

/-- C3 amended: for every completed run, the returned `updated_messages`
equals the input history *truncated to its last 5 turns* followed by one
user turn and one assistant turn, in that order. -/
theorem C3_amended (env : Env) (q ns : String) (mf : MetadataFilter)
    (msgs : List Message) (sf : GraphState) (cf : Counts) (trf : List (Node × Nat)) :
    CRAGPipeline_run env q ns mf msgs = .ok sf cf trf →
    ∃ u a, sf.messages = filter_messages msgs ++ [⟨"user", u⟩, ⟨"assistant", a⟩] := by
  intro hrun
  obtain ⟨r, hreq, _, _, _, _, _, _, _, hmsgs⟩ := run_master env q ns mf msgs
  exact ⟨sf.query, sf.response, hmsgs sf cf trf (hreq ▸ hrun)⟩

/-- Witness for C3 amended at the concrete pleasantry run over 6 turns. -/
theorem C3_amended_w :
    ∃ u a, sfPleasant.messages = filter_messages msgs6 ++ [⟨"user", u⟩, ⟨"assistant", a⟩] :=
  C3_amended envPleasantry "hi" "ns" [] msgs6 sfPleasant ⟨0, 0, 0⟩
    [(.analyze, 0), (.generate, 0)] (by decide)

end CRAG

namespace CRAG

/-- C4: after every grading pass, `relevant_docs` is a subsequence of the
`retrieved_docs` of the most recent retrieval: grading never invents
documents and preserves their relative order (and it leaves
`retrieved_docs` itself untouched). -/
theorem C4_grading_subsequence (env : Env) (s : GraphState) :
    (grade_documents_node env s).relevant_docs.Sublist s.retrieved_docs ∧
    (grade_documents_node env s).retrieved_docs = s.retrieved_docs ∧
    ∀ d ∈ (grade_documents_node env s).relevant_docs, d ∈ s.retrieved_docs := by
  unfold grade_documents_node
  split
  · exact ⟨List.nil_sublist _, rfl, by simp⟩
  · exact ⟨List.filter_sublist _, rfl, fun d hd => List.mem_of_mem_filter hd⟩

/-- Witness for C4 at a concrete grading pass. -/
theorem C4_grading_subsequence_w :
    doc1 ∈ stateThree.retrieved_docs ∧
    (grade_documents_node envGradeBad stateThree).relevant_docs.Sublist
      stateThree.retrieved_docs :=
  ⟨(C4_grading_subsequence envGradeBad stateThree).2.2 doc1 (by decide),
   (C4_grading_subsequence envGradeBad stateThree).1⟩

/-- C5: a document whose grading call raises is excluded from
`relevant_docs` while the remaining documents are still graded normally in
order; an empty input yields an empty relevant set with zero grader calls
(the grading node is a total function, so no exception escapes it). -/
theorem C5_failure_isolation :
    (∀ (env : Env) (s : GraphState) (d : Document) (xs ys : List Document),
      s.retrieved_docs = xs ++ d :: ys →
      env.grade s.query d.page_content = .error () →
      (grade_documents_node env s).relevant_docs =
        xs.filter (fun x => gradeDoc env s.query x) ++
        ys.filter (fun x => gradeDoc env s.query x) ∧
      d ∉ (grade_documents_node env s).relevant_docs) ∧
    (∀ (env : Env) (s : GraphState), s.retrieved_docs = [] →
      (grade_documents_node env s).relevant_docs = [] ∧ grade_documents_calls s = 0) := by
  constructor
  · intro env s d xs ys hret hfail
    have hgd : gradeDoc env s.query d = false := by simp [gradeDoc, hfail]
    have hifn : ¬ (s.retrieved_docs.isEmpty = true) := by
      rw [hret]; simp
    unfold grade_documents_node
    rw [if_neg hifn]
    dsimp only
    rw [hret]
    constructor
    · simp [List.filter_append, List.filter_cons, hgd]
    · simp [List.mem_filter, hgd]
  · intro env s h
    have hif : s.retrieved_docs.isEmpty = true := by rw [h]; rfl
    constructor
    · unfold grade_documents_node
      rw [if_pos hif]
    · unfold grade_documents_calls
      rw [if_pos hif]

/-- Witness for C5: three documents, the middle one failing its grading
call; the other two survive in order, and the empty pass makes no call. -/
theorem C5_failure_isolation_w :
    (grade_documents_node envGradeBad stateThree).relevant_docs =
      [doc1].filter (fun x => gradeDoc envGradeBad stateThree.query x) ++
      [doc3].filter (fun x => gradeDoc envGradeBad stateThree.query x) ∧
    docBad ∉ (grade_documents_node envGradeBad stateThree).relevant_docs ∧
    (grade_documents_node envGradeBad (initState "q" "ns" [] [])).relevant_docs = [] ∧
    grade_documents_calls (initState "q" "ns" [] []) = 0 :=
  ⟨(C5_failure_isolation.1 envGradeBad stateThree docBad [doc1] [doc3]
      (by decide) (by rfl)).1,
   (C5_failure_isolation.1 envGradeBad stateThree docBad [doc1] [doc3]
      (by decide) (by rfl)).2,
   (C5_failure_isolation.2 envGradeBad (initState "q" "ns" [] []) (by decide)).1,
   (C5_failure_isolation.2 envGradeBad (initState "q" "ns" [] []) (by decide)).2⟩

/-- C6 (code bug): when the final completion call raises, the exception
propagates out of `run` (`.error`) instead of surfacing a fixed fallback
answer; the interpreter reaches the `generate_response` node and fails
there. -/
theorem C6_generate_failure_escapes :
    CRAGPipeline_run_api envGenFail "hi" "ns" [] [] = .error () ∧
    CRAGPipeline_run envGenFail "hi" "ns" [] [] =
      .genFailed { initState "hi" "ns" [] [] with input_type := "pleasantry" }
        ⟨0, 0, 0⟩ [(.analyze, 0), (.generate, 0)] :=
  ⟨by rfl, by decide⟩

/-- C7: if the rewrite completion echoes the input (case-insensitively,
after stripping), the rewriter returns the input plus the fixed suffix
`" in simple terms"` and hence differs from the input; on completion
failure it returns the input unchanged; so the output differs from the
input exactly when the completion call succeeded.  The rewrite sub-pipeline
adds nothing beyond one rewriter call. -/
theorem C7_rewrite_guard (env : Env) (q : String) :
    (∀ r, env.rewrite q = .ok r → pyLower (pyStrip r) = pyLower q →
      QueryRewriter_rewrite_query env q = q ++ " in simple terms" ∧
      QueryRewriter_rewrite_query env q ≠ q) ∧
    (env.rewrite q = .error () → QueryRewriter_rewrite_query env q = q) ∧
    ((QueryRewriter_rewrite_query env q ≠ q) ↔ ∃ r, env.rewrite q = .ok r) ∧
    QueryRewritePipeline_run env q = QueryRewriter_rewrite_query env q := by
  have hsuffix : ∀ s : String, s ++ " in simple terms" ≠ s := fun s =>
    append_suffix_ne s " in simple terms" (by decide)
  refine ⟨?_, ?_, ?_, qrp_run_eq env q⟩
  · intro r hr hecho
    unfold QueryRewriter_rewrite_query
    rw [hr]
    dsimp only
    rw [if_pos hecho]
    exact ⟨rfl, hsuffix q⟩
  · intro hr
    unfold QueryRewriter_rewrite_query
    rw [hr]
  · constructor
    · intro hne
      rcases hh : env.rewrite q with e | r
      · exfalso
        apply hne
        unfold QueryRewriter_rewrite_query
        rw [hh]
      · exact ⟨r, rfl⟩
    · rintro ⟨r, hr⟩
      unfold QueryRewriter_rewrite_query
      rw [hr]
      dsimp only
      by_cases hc : pyLower (pyStrip r) = pyLower q
      · rw [if_pos hc]
        exact hsuffix q
      · rw [if_neg hc]
        exact fun he => hc (he ▸ rfl)

/-- Witness for C7: a whitespace-padded echo gets the suffix, a failing
call leaves the query unchanged. -/
theorem C7_rewrite_guard_w :
    QueryRewriter_rewrite_query envEcho "abc" = "abc" ++ " in simple terms" ∧
    QueryRewriter_rewrite_query envRewFail "abc" = "abc" :=
  ⟨((C7_rewrite_guard envEcho "abc").1 (" " ++ "abc" ++ " ") (by rfl) (by decide)).1,
   (C7_rewrite_guard envRewFail "abc").2.1 (by rfl)⟩

/-- C8 counterexample: a match with a missing source field is mapped to the
sentinel `"Unknown Source"`, not `"Unknown"` as the claim states. -/
theorem C8_cex :
    (retrieve_relevant_docs envNoSource "q" "ns" [] 5 true).1.map Document.source
      = ["Unknown Source"] ∧
    (retrieve_relevant_docs envNoSource "q" "ns" [] 5 true).1.map Document.source
      ≠ ["Unknown"] := by decide

/-- C8 amended: the Retriever maps matches to documents in order, missing
content defaulting to `"No content available"` and missing source to
`"Unknown Source"`; on embedding or index failure it returns `[]`. -/
theorem C8_amended (env : Env) (q ns : String) (mf : MetadataFilter) (k : Nat)
    (v : List Int) (ms : List IndexMatch) :
    (env.embed q = .ok v → env.indexQuery ns v mf k = .ok ms → ms ≠ [] →
      (retrieve_relevant_docs env q ns mf k true).1 =
        ms.map (fun m => ⟨m.text.getD "No content available",
          m.source.getD "Unknown Source", m.score.getD 0⟩)) ∧
    (env.embed q = .error () →
      ∀ retry, (retrieve_relevant_docs env q ns mf k retry).1 = []) ∧
    (env.embed q = .ok v → env.indexQuery ns v mf k = .error () →
      ∀ retry, (retrieve_relevant_docs env q ns mf k retry).1 = []) := by
  refine ⟨?_, ?_, ?_⟩
  · intro he hi hne
    unfold retrieve_relevant_docs retrieveRaw
    rw [he]
    dsimp only
    rw [hi]
    dsimp only
    rcases ms with _ | ⟨m, ms'⟩
    · exact absurd rfl hne
    · rw [if_neg (by simp)]
      rfl
  · intro he retry
    unfold retrieve_relevant_docs retrieveRaw
    rw [he]
  · intro he hi retry
    unfold retrieve_relevant_docs retrieveRaw
    rw [he]
    dsimp only
    rw [hi]

/-- Witness for C8 amended: the no-source match run plus both failure
modes. -/
theorem C8_amended_w :
    (retrieve_relevant_docs envNoSource "q" "ns" [] 5 true).1 =
      [(⟨some "hello", none, none⟩ : IndexMatch)].map (fun m =>
        (⟨m.text.getD "No content available",
          m.source.getD "Unknown Source", m.score.getD 0⟩ : Document)) ∧
    (retrieve_relevant_docs envEmbedFail "q" "ns" [] 5 true).1 = [] ∧
    (retrieve_relevant_docs envIdxFail "q" "ns" [] 5 true).1 = [] :=
  ⟨(C8_amended envNoSource "q" "ns" [] 5 [] [⟨some "hello", none, none⟩]).1
      (by rfl) (by rfl) (by decide),
   (C8_amended envEmbedFail "q" "ns" [] 5 [] []).2.1 (by rfl) true,
   (C8_amended envIdxFail "q" "ns" [] 5 [] []).2.2 (by rfl) (by rfl) true⟩

end CRAG

namespace CRAG

lemma grade_nspace (env : Env) (s : GraphState) :
    (grade_documents_node env s).nspace = s.nspace := by
  unfold grade_documents_node; split <;> rfl

lemma grade_mf (env : Env) (s : GraphState) :
    (grade_documents_node env s).metadata_filter = s.metadata_filter := by
  unfold grade_documents_node; split <;> rfl

lemma grade_relevant_of_empty (env : Env) (s : GraphState) (h : s.retrieved_docs = []) :
    (grade_documents_node env s).relevant_docs = [] := by
  unfold grade_documents_node
  rw [if_pos (by rw [h]; rfl)]

lemma rewrite_nspace (env : Env) (s : GraphState) :
    (rewrite_query_node env s).nspace = s.nspace := by
  unfold rewrite_query_node
  split
  · rfl
  · dsimp only; split <;> rfl

lemma rewrite_mf (env : Env) (s : GraphState) :
    (rewrite_query_node env s).metadata_filter = s.metadata_filter := by
  unfold rewrite_query_node
  split
  · rfl
  · dsimp only; split <;> rfl

lemma retrieve_node_nspace (env : Env) (s : GraphState) :
    (retrieve_documents_node env s).1.nspace = s.nspace := rfl

lemma retrieve_node_mf (env : Env) (s : GraphState) :
    (retrieve_documents_node env s).1.metadata_filter = s.metadata_filter := rfl

lemma retrieve_node_retrieved (env : Env) (s : GraphState) :
    (retrieve_documents_node env s).1.retrieved_docs =
      (retrieve_relevant_docs env s.query s.nspace s.metadata_filter 5 true).1 := rfl

lemma exec_generate_ok (env : Env) (f : Nat) (s : GraphState) (c : Counts)
    (tr : List (Node × Nat)) (resp : String)
    (h : env.generate s.query (build_context s.relevant_docs)
      (build_history (filter_messages s.messages)) = .ok resp) :
    execFrom env (f + 1) .generate s c tr =
      .ok { s with response := resp
                   messages := filter_messages s.messages ++
                     [⟨"user", s.query⟩, ⟨"assistant", resp⟩] }
        c (tr ++ [(.generate, s.attempt_count)]) := by
  simp only [execFrom, generate_node_ok env s resp h]

/-- Expected node sequence of the exhausted-retry loop entered at a grade
pass with `k` rewrite attempts left. -/
def gradeNodes : Nat → List Node
  | 0 => [.grade, .generate]
  | k + 1 => .grade :: .rewrite :: .retrieve :: gradeNodes k

/-- Symbolic execution of the loop when retrieval always comes back empty:
the run uses its whole rewrite budget, ends `.ok` with `attempt_count = 2`,
no relevant documents, and a response produced by the generator. -/
lemma exec_grade_empty (env : Env) (ns : String) (mf : MetadataFilter)
    (g : String → String → String → String)
    (hret : ∀ q' k retry, (retrieve_relevant_docs env q' ns mf k retry).1 = [])
    (hgen : ∀ a b c, env.generate a b c = .ok (g a b c)) :
    ∀ (k f : Nat) (s : GraphState) (c : Counts) (tr : List (Node × Nat)),
      s.attempt_count + k = 2 →
      s.nspace = ns → s.metadata_filter = mf →
      s.retrieved_docs = [] →
      2 + 3 * k ≤ f →
      ∃ sf cf tl, execFrom env f .grade s c tr = .ok sf cf (tr ++ tl) ∧
        tl.map Prod.fst = gradeNodes k ∧
        sf.attempt_count = 2 ∧
        sf.relevant_docs = [] ∧
        (∃ x y z, sf.response = g x y z) := by
  intro k
  induction k with
  | zero =>
    intro f s c tr h1 hns hmf hempty h3
    obtain ⟨f', rfl⟩ : ∃ f', f = f' + 1 + 1 := ⟨f - 2, by omega⟩
    have hrel : (grade_documents_node env s).relevant_docs = [] :=
      grade_relevant_of_empty env s hempty
    have hd : decide_next_step (grade_documents_node env s) ≠ "rewrite_query" := by
      rw [decide_next_of_empty_ge _ hrel (by rw [grade_attempt]; omega)]
      decide
    have hstep := (exec_grade_terminal env f' s c tr hd).trans
      (exec_generate_ok env f' (grade_documents_node env s) _ _ _ (hgen _ _ _))
    rw [show (tr ++ [(Node.grade, (grade_documents_node env s).attempt_count)]) ++
        [(Node.generate, (grade_documents_node env s).attempt_count)] =
        tr ++ [(Node.grade, (grade_documents_node env s).attempt_count),
          (Node.generate, (grade_documents_node env s).attempt_count)] by simp] at hstep
    refine ⟨_, _, [(.grade, (grade_documents_node env s).attempt_count),
        (.generate, (grade_documents_node env s).attempt_count)], hstep, rfl, ?_, ?_, ?_⟩
    · rw [grade_attempt]; omega
    · exact hrel
    · exact ⟨_, _, _, rfl⟩
  | succ k ih =>
    intro f s c tr h1 hns hmf hempty h3
    obtain ⟨f₃, rfl⟩ : ∃ f₃, f = f₃ + 1 + 1 + 1 := ⟨f - 3, by omega⟩
    have hrel : (grade_documents_node env s).relevant_docs = [] :=
      grade_relevant_of_empty env s hempty
    have hd : decide_next_step (grade_documents_node env s) = "rewrite_query" :=
      decide_next_of_empty_lt _ hrel (by rw [grade_attempt]; omega)
    rw [exec_grade_loop env (f₃ + 1 + 1) s c tr hd]
    rw [exec_rewrite_step]
    rw [exec_retrieve_step]
    obtain ⟨sf, cf, tl, hrun, hnodes, hatt, hrelf, hresp⟩ :=
      ih f₃
        (retrieve_documents_node env (rewrite_query_node env (grade_documents_node env s))).1
        _ _
        (by rw [retrieve_node_attempt, rewrite_attempt_of_lt env _
              (by rw [grade_attempt]; omega), grade_attempt]; omega)
        (by rw [retrieve_node_nspace, rewrite_nspace, grade_nspace, hns])
        (by rw [retrieve_node_mf, rewrite_mf, grade_mf, hmf])
        (by rw [retrieve_node_retrieved]
            rw [show (rewrite_query_node env (grade_documents_node env s)).nspace = ns by
              rw [rewrite_nspace, grade_nspace, hns]]
            rw [show (rewrite_query_node env (grade_documents_node env s)).metadata_filter
                = mf by rw [rewrite_mf, grade_mf, hmf]]
            exact hret _ 5 true)
        (by omega)
    refine ⟨sf, cf, (.grade, (grade_documents_node env s).attempt_count)
        :: (.rewrite, (rewrite_query_node env (grade_documents_node env s)).attempt_count)
        :: (.retrieve, (retrieve_documents_node env (rewrite_query_node env
            (grade_documents_node env s))).1.attempt_count) :: tl, ?_, ?_, hatt, hrelf, hresp⟩
    · rw [hrun]
      simp
    · simp only [List.map_cons, hnodes]
      rfl

end CRAG

namespace CRAG

/-- C9: with a retriever stub always returning empty results (grading of an
empty batch is empty), a question-classified run reaches the terminal
generate step after exactly 2 rewrite attempts, with `attempt_count = 2`,
an empty relevant set, and a non-empty answer from the empty-context
generation path. -/
theorem C9_exhaustion_run (env : Env) (q ns : String) (mf : MetadataFilter)
    (msgs : List Message) (g : String → String → String → String) :
    env.classify q = .ok "question" →
    (∀ q' k retry, (retrieve_relevant_docs env q' ns mf k retry).1 = []) →
    (∀ a b c, env.generate a b c = .ok (g a b c)) →
    (∀ a b c, g a b c ≠ "") →
    ∃ sf cf trf, CRAGPipeline_run env q ns mf msgs = .ok sf cf trf ∧
      sf.attempt_count = 2 ∧
      trf.map Prod.fst = [.analyze, .retrieve, .grade, .rewrite, .retrieve, .grade,
        .rewrite, .retrieve, .grade, .generate] ∧
      sf.relevant_docs = [] ∧
      sf.response ≠ "" := by
  intro hcls hret hgen hne
  have h12 : CRAGPipeline_run env q ns mf msgs =
      execFrom env (11 + 1) .analyze (initState q ns mf msgs) ⟨0, 0, 0⟩ [] := rfl
  have e0 := exec_analyze_step env 11 (initState q ns mf msgs) ⟨0, 0, 0⟩ []
  have hin : (analyze_input_node env (initState q ns mf msgs)).input_type = "question" := by
    show InputAnalyzer_analyze_input env (initState q ns mf msgs).query = "question"
    unfold InputAnalyzer_analyze_input
    rw [show (initState q ns mf msgs).query = q from rfl, hcls]
    dsimp only
    rw [if_pos (Or.inl rfl)]
  have hp : decide_analysis_result (analyze_input_node env (initState q ns mf msgs))
      ≠ "generate_response" := by
    unfold decide_analysis_result
    rw [hin, if_neg (by decide)]
    decide
  rw [if_neg hp] at e0
  rw [show (analyze_input_node env (initState q ns mf msgs)).attempt_count = 0 from rfl] at e0
  rw [show (11 : Nat) = 10 + 1 from rfl] at e0
  simp only [List.nil_append] at e0
  have e1 := exec_retrieve_step env 10 (analyze_input_node env (initState q ns mf msgs))
    ⟨0, 0, 0⟩ [(.analyze, 0)]
  rw [show ((retrieve_documents_node env
      (analyze_input_node env (initState q ns mf msgs))).1).attempt_count = 0 from rfl] at e1
  obtain ⟨sf, cf, tl, hrun, hnodes, hatt, hrelf, x, y, z, hresp⟩ :=
    exec_grade_empty env ns mf g hret hgen 2 10
      (retrieve_documents_node env (analyze_input_node env (initState q ns mf msgs))).1
      _ ([(.analyze, 0)] ++ [(.retrieve, 0)])
      rfl rfl rfl (hret _ 5 true) (by omega)
  refine ⟨sf, cf, _, h12.trans (e0.trans (e1.trans hrun)), hatt, ?_, hrelf, ?_⟩
  · simp only [List.append_assoc, List.cons_append, List.nil_append, List.map_append,
      List.map_cons, List.map_nil, hnodes]
    rfl
  · rw [hresp]
    exact hne x y z

/-- Witness for C9 on the concrete empty-index stub. -/
theorem C9_exhaustion_run_w :
    ∃ sf cf trf, CRAGPipeline_run envEmptyIdx "q" "ns" [] [] = .ok sf cf trf ∧
      sf.attempt_count = 2 ∧
      trf.map Prod.fst = [.analyze, .retrieve, .grade, .rewrite, .retrieve, .grade,
        .rewrite, .retrieve, .grade, .generate] ∧
      sf.relevant_docs = [] ∧
      sf.response ≠ "" :=
  C9_exhaustion_run envEmptyIdx "q" "ns" [] [] (fun _ _ _ => "ANSWER") rfl
    (fun q' k retry => by cases retry <;> rfl) (fun _ _ _ => rfl)
    (fun _ _ _ => (by decide : ("ANSWER" : String) ≠ ""))

/-- C10 counterexample: with the rewriter cycling `"a" ↦ "b" ↦ "a"`, two
rewrites replace the query, yet the appended user turn carries the original
utterance `"a"` again — so "the user turn differs from the original whenever
a rewrite replaced the query" is false. -/
theorem C10_cex :
    CRAGPipeline_run envCycle "a" "ns" [] [] =
      .ok sfCycle ⟨6, 6, 0⟩ [(.analyze, 0), (.retrieve, 0), (.grade, 0), (.rewrite, 1),
        (.retrieve, 1), (.grade, 1), (.rewrite, 2), (.retrieve, 2), (.grade, 2),
        (.generate, 2)] ∧
    sfCycle.rewritten_queries = ["b", "a"] ∧
    sfCycle.messages.dropLast.getLast? = some ⟨"user", "a"⟩ := by decide

/-- C10 amended: in every completed run, the appended user turn carries the
query text current at response-generation time (the final query); it can
coincide with the original utterance even after rewrites, when later
rewrites return to the original string. -/
theorem C10_amended (env : Env) (q ns : String) (mf : MetadataFilter)
    (msgs : List Message) (sf : GraphState) (cf : Counts) (trf : List (Node × Nat)) :
    CRAGPipeline_run env q ns mf msgs = .ok sf cf trf →
    sf.messages.dropLast.getLast? = some ⟨"user", sf.query⟩ := by
  intro hrun
  obtain ⟨r, hreq, _, _, _, _, _, _, _, hmsgs⟩ := run_master env q ns mf msgs
  rw [hmsgs sf cf trf (hreq ▸ hrun)]
  exact dropLast_getLast?_append _ _ _

/-- Witness for C10 amended at the cycling-rewriter run. -/
theorem C10_amended_w :
    sfCycle.messages.dropLast.getLast? = some ⟨"user", sfCycle.query⟩ :=
  C10_amended envCycle "a" "ns" [] [] sfCycle ⟨6, 6, 0⟩
    [(.analyze, 0), (.retrieve, 0), (.grade, 0), (.rewrite, 1), (.retrieve, 1),
      (.grade, 1), (.rewrite, 2), (.retrieve, 2), (.grade, 2), (.generate, 2)] (by decide)

end CRAG
